import Mathlib

/-!
Verification of the MCP tool-registry dispatch protocol implemented in
`mcp_server.py` and its client connector `crewai_connector.py`.

The embedding models JSON-like Python values (`Value`), the server's fixed
tool registry, the `/mcp` dispatcher (`handle_mcp_request`), the two tool
handlers (`get_crew_status`, `execute_crew_task`) and the connector-side
envelope interpretation.  CPython's process-seeded string hash is abstracted
as a function parameter `pyhash`; every theorem quantifies over it.
-/

namespace MCPCrewAI

/-- JSON-like Python values as they occur in parsed request/response bodies.
`int` and `float` mirror Python's two numeric types (a JSON integer literal
parses to `int`, a literal with a fraction/exponent to `float`).  Equality is
structural; the model does not identify `int 3` with `float 3` the way Python
`==` would, but no code path in this repository compares numbers. -/
inductive Value where
  | null
  | bool (b : Bool)
  | int (n : Int)
  | float (q : Rat)
  | str (s : String)
  | arr (elems : List Value)
  | obj (fields : List (String × Value))
deriving Repr

mutual

def Value.decEq : (a b : Value) → Decidable (a = b)
  | .null, .null => isTrue rfl
  | .null, .bool _ => isFalse nofun
  | .null, .int _ => isFalse nofun
  | .null, .float _ => isFalse nofun
  | .null, .str _ => isFalse nofun
  | .null, .arr _ => isFalse nofun
  | .null, .obj _ => isFalse nofun
  | .bool _, .null => isFalse nofun
  | .bool a, .bool b =>
    if h : a = b then isTrue (by rw [h]) else isFalse (fun hh => h (Value.bool.inj hh))
  | .bool _, .int _ => isFalse nofun
  | .bool _, .float _ => isFalse nofun
  | .bool _, .str _ => isFalse nofun
  | .bool _, .arr _ => isFalse nofun
  | .bool _, .obj _ => isFalse nofun
  | .int _, .null => isFalse nofun
  | .int _, .bool _ => isFalse nofun
  | .int a, .int b =>
    if h : a = b then isTrue (by rw [h]) else isFalse (fun hh => h (Value.int.inj hh))
  | .int _, .float _ => isFalse nofun
  | .int _, .str _ => isFalse nofun
  | .int _, .arr _ => isFalse nofun
  | .int _, .obj _ => isFalse nofun
  | .float _, .null => isFalse nofun
  | .float _, .bool _ => isFalse nofun
  | .float _, .int _ => isFalse nofun
  | .float a, .float b =>
    if h : a = b then isTrue (by rw [h]) else isFalse (fun hh => h (Value.float.inj hh))
  | .float _, .str _ => isFalse nofun
  | .float _, .arr _ => isFalse nofun
  | .float _, .obj _ => isFalse nofun
  | .str _, .null => isFalse nofun
  | .str _, .bool _ => isFalse nofun
  | .str _, .int _ => isFalse nofun
  | .str _, .float _ => isFalse nofun
  | .str a, .str b =>
    if h : a = b then isTrue (by rw [h]) else isFalse (fun hh => h (Value.str.inj hh))
  | .str _, .arr _ => isFalse nofun
  | .str _, .obj _ => isFalse nofun
  | .arr _, .null => isFalse nofun
  | .arr _, .bool _ => isFalse nofun
  | .arr _, .int _ => isFalse nofun
  | .arr _, .float _ => isFalse nofun
  | .arr _, .str _ => isFalse nofun
  | .arr xs, .arr ys =>
    match Value.decEqList xs ys with
    | isTrue h => isTrue (by rw [h])
    | isFalse h => isFalse (fun hh => h (Value.arr.inj hh))
  | .arr _, .obj _ => isFalse nofun
  | .obj _, .null => isFalse nofun
  | .obj _, .bool _ => isFalse nofun
  | .obj _, .int _ => isFalse nofun
  | .obj _, .float _ => isFalse nofun
  | .obj _, .str _ => isFalse nofun
  | .obj _, .arr _ => isFalse nofun
  | .obj xs, .obj ys =>
    match Value.decEqFields xs ys with
    | isTrue h => isTrue (by rw [h])
    | isFalse h => isFalse (fun hh => h (Value.obj.inj hh))

def Value.decEqList : (xs ys : List Value) → Decidable (xs = ys)
  | [], [] => isTrue rfl
  | [], _ :: _ => isFalse nofun
  | _ :: _, [] => isFalse nofun
  | x :: xs, y :: ys =>
    match Value.decEq x y, Value.decEqList xs ys with
    | isTrue h1, isTrue h2 => isTrue (by rw [h1, h2])
    | isFalse h1, _ => isFalse (fun hh => h1 (List.cons.inj hh).1)
    | _, isFalse h2 => isFalse (fun hh => h2 (List.cons.inj hh).2)

def Value.decEqFields : (xs ys : List (String × Value)) → Decidable (xs = ys)
  | [], [] => isTrue rfl
  | [], _ :: _ => isFalse nofun
  | _ :: _, [] => isFalse nofun
  | (k, v) :: xs, (k', v') :: ys =>
    if hk : k = k' then
      match Value.decEq v v', Value.decEqFields xs ys with
      | isTrue h1, isTrue h2 => isTrue (by rw [hk, h1, h2])
      | isFalse h1, _ =>
        isFalse (fun hh => h1 (congrArg Prod.snd (List.cons.inj hh).1))
      | _, isFalse h2 => isFalse (fun hh => h2 (List.cons.inj hh).2)
    else
      isFalse (fun hh => hk (congrArg Prod.fst (List.cons.inj hh).1))

end

instance : DecidableEq Value := Value.decEq

instance {ε α : Type} [DecidableEq ε] [DecidableEq α] : DecidableEq (Except ε α)
  | .error a, .error b =>
    if h : a = b then isTrue (by rw [h]) else isFalse (fun hh => h (Except.error.inj hh))
  | .error _, .ok _ => isFalse nofun
  | .ok _, .error _ => isFalse nofun
  | .ok a, .ok b =>
    if h : a = b then isTrue (by rw [h]) else isFalse (fun hh => h (Except.ok.inj hh))

/-- Python truthiness (`bool(v)`): `None`, `False`, numeric zero and empty
containers/strings are falsy, everything else truthy.  Used by the source's
`if not task_description or not agent_role` check. -/
def Value.truthy : Value → Bool
  | .null => false
  | .bool b => b
  | .int n => n != 0
  | .float q => q != 0
  | .str s => !s.isEmpty
  | .arr xs => !xs.isEmpty
  | .obj fs => !fs.isEmpty

/-- `type(v).__name__` for the modelled values, as it appears in CPython
error messages such as `unhashable type: 'list'`. -/
def Value.pyTypeName : Value → String
  | .null => "NoneType"
  | .bool _ => "bool"
  | .int _ => "int"
  | .float _ => "float"
  | .str _ => "str"
  | .arr _ => "list"
  | .obj _ => "dict"

/-- Whether `hash(v)` succeeds in CPython: lists and dicts are unhashable
(`hash` raises `TypeError`), every other modelled value is hashable. -/
def Value.hashable : Value → Bool
  | .arr _ => false
  | .obj _ => false
  | _ => true

/-- `p`-adic valuation of `n` (number of times `p` divides `n`), used to
render finite decimal expansions of float literals. -/
def padicValNat' (p n : ℕ) : ℕ :=
  if h : 2 ≤ p ∧ 0 < n ∧ n % p = 0 then padicValNat' p (n / p) + 1 else 0
termination_by n
decreasing_by exact Nat.div_lt_self h.2.1 (by omega)

/-- `str()` of a Python float, modelled on the rational the JSON literal
denotes.  For values whose reduced denominator is of the form `2^a * 5^b`
(every IEEE-754 double is), this is the exact finite decimal expansion
without trailing zeros, which coincides with CPython's shortest-round-trip
repr on the literals this repository can produce.  Other rationals (not
representable as floats) fall back to fraction notation. -/
def floatStr (q : Rat) : String :=
  let sign := if q < 0 then "-" else ""
  let m := q.num.natAbs
  let d := q.den
  let k := max (padicValNat' 2 d) (padicValNat' 5 d)
  if d ∣ 10 ^ k then
    let scaled := m * 10 ^ k / d
    let ip := scaled / 10 ^ k
    let fp := scaled % 10 ^ k
    if k = 0 then sign ++ toString ip ++ ".0"
    else
      let fpDigits := toString fp
      let pad := String.mk (List.replicate (k - fpDigits.length) (Char.ofNat 48))
      sign ++ toString ip ++ "." ++ pad ++ fpDigits
  else
    sign ++ toString m ++ "/" ++ toString d

mutual

/-- Python `repr()` restricted to the modelled values (string escape
sequences inside `repr` of a string are not reproduced; no code path in this
repository reprs a string containing quotes or escapes). -/
def Value.pyRepr : Value → String
  | .null => "None"
  | .bool b => cond b "True" "False"
  | .int n => toString n
  | .float q => floatStr q
  | .str s => "\x27" ++ s ++ "\x27"
  | .arr xs => "[" ++ Value.pyReprList xs ++ "]"
  | .obj fs => "\x7b" ++ Value.pyReprFields fs ++ "\x7d"

def Value.pyReprList : List Value → String
  | [] => ""
  | [x] => Value.pyRepr x
  | x :: y :: xs => Value.pyRepr x ++ ", " ++ Value.pyReprList (y :: xs)

def Value.pyReprFields : List (String × Value) → String
  | [] => ""
  | [(k, v)] => "\x27" ++ k ++ "\x27: " ++ Value.pyRepr v
  | (k, v) :: f :: fs =>
    "\x27" ++ k ++ "\x27: " ++ Value.pyRepr v ++ ", " ++ Value.pyReprFields (f :: fs)

end

/-- Python `str()`, as used by f-string interpolation: identity on strings,
`repr` on everything else. -/
def Value.pyStr : Value → String
  | .str s => s
  | v => Value.pyRepr v

/-- `d.get(key)` on a parsed-JSON dict represented as an association list
(first binding wins; a parsed JSON object has unique keys). -/
def dictLookup (fields : List (String × Value)) (key : String) : Option Value :=
  (fields.find? (fun p => p.1 == key)).map Prod.snd

/-- `v.get(key, default)` on an arbitrary Python value: association-list
lookup when `v` is a dict, and the `AttributeError` CPython raises when `v`
is any other modelled value (none of which has a `get` attribute). -/
def Value.get (v : Value) (key : String) (dflt : Value) : Except String Value :=
  match v with
  | .obj fields =>
    match dictLookup fields key with
    | some x => .ok x
    | none => .ok dflt
  | _ => .error ("\x27" ++ v.pyTypeName ++ "\x27 object has no attribute \x27get\x27")

/-! ## The server (`mcp_server.py`) -/

/-- One entry of `SimpleMCPServer.tools`: the per-tool dict with `name`,
`description` and `schema` keys. -/
structure ToolSpec where
  name : String
  description : String
  schema : Value
deriving DecidableEq, Repr

/-- `class MCPRequest(BaseModel)`: `method: str`, `params: Dict[str, Any]`
(default `{}`).  `params` is a parsed-JSON dict, so string keys and
arbitrary JSON values. -/
structure MCPRequest where
  method : String
  params : List (String × Value) := []
deriving DecidableEq, Repr

/-- `class MCPResponse(BaseModel)`: `success: bool`, `data: Any = None`,
`error: Optional[str] = None`.  `data = Value.null` models the Python
default `None`. -/
structure MCPResponse where
  success : Bool
  data : Value := .null
  error : Option String := none
deriving DecidableEq, Repr

/-- The registry `self.tools` exactly as assigned in
`SimpleMCPServer.__init__`: a dict from tool name to tool spec, in
insertion order. -/
structure SimpleMCPServer where
  tools : List (String × ToolSpec)
deriving DecidableEq, Repr

/-- The registry literal from `SimpleMCPServer.__init__`. -/
def SimpleMCPServer.init : SimpleMCPServer :=
  { tools :=
    [ ("get_crew_status",
       { name := "get_crew_status"
         description := "Get the status of CrewAI agents and tasks"
         schema := .obj
           [ ("type", .str "object")
           , ("properties", .obj
               [ ("crew_id", .obj
                   [ ("type", .str "string")
                   , ("description", .str "ID of the crew to check status for") ]) ]) ] })
    , ("execute_crew_task",
       { name := "execute_crew_task"
         description := "Execute a task using CrewAI"
         schema := .obj
           [ ("type", .str "object")
           , ("properties", .obj
               [ ("task_description", .obj
                   [ ("type", .str "string")
                   , ("description", .str "Description of the task to execute") ])
               , ("agent_role", .obj
                   [ ("type", .str "string")
                   , ("description", .str "Role of the agent to use for the task") ]) ])
           , ("required", .arr [.str "task_description", .str "agent_role"]) ] }) ] }

/-- `get_crew_status` handler: the fixed mock status record.  `crew_id` is
whatever value the caller supplied (the source does not coerce it). -/
def get_crew_status (crew_id : Value) : Value :=
  .obj
    [ ("crew_id", crew_id)
    , ("status", .str "active")
    , ("agents", .arr [.str "researcher", .str "writer", .str "reviewer"])
    , ("current_task", .str "Analyzing data")
    , ("completion", .float ((3 : Rat) / 4))
    , ("timestamp", .str "2024-01-01T12:00:00Z") ]

/-- `hash(v)` in CPython: raises `TypeError` on unhashable values, otherwise
yields an `int` given by the process-specific hash function `pyhash` (string
hashing is seeded per process; we treat the whole hash as an abstract
parameter and quantify over it). -/
def pyHash (pyhash : Value → Int) (v : Value) : Except String Int :=
  if v.hashable then .ok (pyhash v)
  else .error ("unhashable type: \x27" ++ v.pyTypeName ++ "\x27")

/-- `execute_crew_task` handler: derives
`task_id = f"task_{abs(hash(task_description)) % 10000}"` and returns the
mock completion record echoing `task_description` and `agent_role`. -/
def execute_crew_task (pyhash : Value → Int) (task_description agent_role : Value) :
    Except String Value :=
  match pyHash pyhash task_description with
  | .error e => .error e
  | .ok h =>
    .ok (.obj
      [ ("task_id", .str ("task_" ++ toString (h.natAbs % 10000)))
      , ("status", .str "completed")
      , ("agent_role", agent_role)
      , ("task_description", task_description)
      , ("result", .str ("Task \x27" ++ task_description.pyStr
          ++ "\x27 completed successfully by " ++ agent_role.pyStr ++ " agent"))
      , ("execution_time", .str "2.5s")
      , ("timestamp", .str "2024-01-01T12:00:00Z") ])

/-- `SimpleMCPServer.execute_tool`: routes a registered tool name to its
handler.  `arguments` is the raw value extracted from the request params, so
the `.get` calls can raise `AttributeError` when it is not a dict, exactly
as in the source; `.error` models a raised exception. -/
def execute_tool (pyhash : Value → Int) (tool_name : String) (arguments : Value) :
    Except String Value :=
  if tool_name == "get_crew_status" then
    match arguments.get "crew_id" (.str "default") with
    | .error e => .error e
    | .ok crew_id => .ok (get_crew_status crew_id)
  else if tool_name == "execute_crew_task" then
    match arguments.get "task_description" .null with
    | .error e => .error e
    | .ok task_description =>
      match arguments.get "agent_role" .null with
      | .error e => .error e
      | .ok agent_role =>
        if !task_description.truthy || !agent_role.truthy then
          .error "task_description and agent_role are required"
        else
          execute_crew_task pyhash task_description agent_role
  else
    .error ("Unknown tool: " ++ tool_name)

/-- `tool_name not in self.tools` under the surrounding `try`: dict
membership hashes the key, so an unhashable `tool_name` raises `TypeError`;
a hashable non-string is never equal to a string key; a string is looked up
among the keys.  Returns the matched key so the dispatcher can hand the
registered name to `execute_tool`. -/
def registeredName (server : SimpleMCPServer) (v : Value) :
    Except String (Option String) :=
  if v.hashable then
    match v with
    | .str s => .ok (if server.tools.any (fun p => p.1 == s) then some s else none)
    | _ => .ok none
  else
    .error ("unhashable type: \x27" ++ v.pyTypeName ++ "\x27")

/-- The `list_tools` comprehension: `{name, description}` of every registry
entry, in registration order, dropping the schema. -/
def tools_list (server : SimpleMCPServer) : List Value :=
  server.tools.map (fun p =>
    .obj [("name", .str p.2.name), ("description", .str p.2.description)])

/-- The `/mcp` handler `handle_mcp_request`: dispatches `list_tools`,
`call_tool` and unknown methods, with the enclosing `try/except` mapping any
raised exception (`.error` in the model) to a failure envelope whose `error`
is the exception's message. -/
def handle_mcp_request (pyhash : Value → Int) (server : SimpleMCPServer)
    (request : MCPRequest) : MCPResponse :=
  if request.method == "list_tools" then
    { success := true, data := .arr (tools_list server), error := none }
  else if request.method == "call_tool" then
    match registeredName server ((dictLookup request.params "name").getD .null) with
    | .error e => { success := false, data := .null, error := some e }
    | .ok none =>
      { success := false, data := .null
        error := some ("Unknown tool: "
          ++ ((dictLookup request.params "name").getD .null).pyStr) }
    | .ok (some name) =>
      match execute_tool pyhash name
          ((dictLookup request.params "arguments").getD (.obj [])) with
      | .ok result => { success := true, data := result, error := none }
      | .error e => { success := false, data := .null, error := some e }
  else
    { success := false, data := .null
      error := some ("Unknown method: " ++ request.method) }

/-- One request processed against the server object: the handler reads
`self.tools` but never assigns to `self`, so the resulting server state is
the incoming one. -/
def handle_step (pyhash : Value → Int) (server : SimpleMCPServer)
    (request : MCPRequest) : SimpleMCPServer × MCPResponse :=
  (server, handle_mcp_request pyhash server request)

/-! ## The connector (`crewai_connector.py`)

`send_mcp_request` returns `await response.json()` on a 200-status reply:
the JSON serialization of the server's `MCPResponse` (all three fields,
pydantic defaults included).  The connector methods below are modelled as
functions of that received dict; non-200/transport faults raise before this
point and are outside these definitions. -/

/-- The wire form of an `MCPResponse` as `response.json()` parses it. -/
def encodeResponse (r : MCPResponse) : List (String × Value) :=
  [ ("success", .bool r.success)
  , ("data", r.data)
  , ("error", match r.error with | some e => .str e | none => .null) ]

/-- `UpdatedCrewAIConnector.list_mcp_tools` applied to a received envelope:
returns `data` when `success` is truthy, otherwise raises
`Exception(f"Failed to list MCP tools: {response.get('error')}")`. -/
def list_mcp_tools (response : List (String × Value)) : Except String Value :=
  if ((dictLookup response "success").getD .null).truthy then
    .ok ((dictLookup response "data").getD (.arr []))
  else
    .error ("Failed to list MCP tools: "
      ++ ((dictLookup response "error").getD .null).pyStr)

/-- `UpdatedCrewAIConnector.get_crew_status_from_mcp` applied to a received
envelope: the source returns the envelope unchanged (`return response`),
with no success check. -/
def get_crew_status_from_mcp (response : List (String × Value)) :
    List (String × Value) :=
  response

/-! ## Helper lemmas -/

/-- Every successfully executed tool returns a dict (both handlers build
object literals). -/
theorem execute_tool_ok_obj (pyhash : Value → Int) (name : String) (args v : Value)
    (h : execute_tool pyhash name args = .ok v) : ∃ fs, v = .obj fs := by
  unfold execute_tool execute_crew_task pyHash at h
  repeat' split at h
  all_goals
    first
    | exact Except.noConfusion h
    | exact ⟨_, (Except.ok.inj h).symm⟩

/-- `.get` on a dict value is total and returns the looked-up binding or the
default. -/
theorem Value.get_obj (args : List (String × Value)) (key : String) (dflt : Value) :
    (Value.obj args).get key dflt = .ok ((dictLookup args key).getD dflt) := by
  unfold Value.get
  cases h : dictLookup args key <;> simp [h]

/-- Routing `get_crew_status` with dict arguments: always succeeds with the
fixed status record, defaulting `crew_id` to `"default"`. -/
theorem execute_tool_status (pyhash : Value → Int) (args : List (String × Value)) :
    execute_tool pyhash "get_crew_status" (.obj args) =
      .ok (get_crew_status ((dictLookup args "crew_id").getD (.str "default"))) := by
  unfold execute_tool
  rw [Value.get_obj]
  simp

/-- Routing `execute_crew_task` with dict arguments: validates truthiness of
both required arguments, then calls the handler. -/
theorem execute_tool_exec (pyhash : Value → Int) (args : List (String × Value)) :
    execute_tool pyhash "execute_crew_task" (.obj args) =
      if !((dictLookup args "task_description").getD .null).truthy
          || !((dictLookup args "agent_role").getD .null).truthy then
        .error "task_description and agent_role are required"
      else
        execute_crew_task pyhash ((dictLookup args "task_description").getD .null)
          ((dictLookup args "agent_role").getD .null) := by
  unfold execute_tool
  simp only [Value.get_obj]
  simp

/-- A `call_tool` request whose name resolves to a registered tool and whose
tool execution succeeds yields the success envelope with the result as data. -/
theorem handle_call_ok (pyhash : Value → Int) (server : SimpleMCPServer)
    (params : List (String × Value)) (s : String) (r : Value)
    (hreg : registeredName server ((dictLookup params "name").getD .null) = .ok (some s))
    (hx : execute_tool pyhash s ((dictLookup params "arguments").getD (.obj [])) = .ok r) :
    handle_mcp_request pyhash server ⟨"call_tool", params⟩ = ⟨true, r, none⟩ := by
  unfold handle_mcp_request
  simp only [hreg, hx]
  simp

/-- A `call_tool` request whose name resolves to a registered tool and whose
tool execution raises yields the failure envelope with the raised message. -/
theorem handle_call_err (pyhash : Value → Int) (server : SimpleMCPServer)
    (params : List (String × Value)) (s e : String)
    (hreg : registeredName server ((dictLookup params "name").getD .null) = .ok (some s))
    (hx : execute_tool pyhash s ((dictLookup params "arguments").getD (.obj [])) = .error e) :
    handle_mcp_request pyhash server ⟨"call_tool", params⟩ = ⟨false, .null, some e⟩ := by
  unfold handle_mcp_request
  simp only [hreg, hx]
  simp

/-- The dispatcher only ever produces a success envelope carrying non-null
data and no error, or a failure envelope carrying null data and a message. -/
theorem handle_shape (pyhash : Value → Int) (server : SimpleMCPServer)
    (request : MCPRequest) :
    (∃ d, d ≠ Value.null ∧
        handle_mcp_request pyhash server request = ⟨true, d, none⟩) ∨
    (∃ e, handle_mcp_request pyhash server request = ⟨false, .null, some e⟩) := by
  unfold handle_mcp_request
  split
  · exact .inl ⟨.arr (tools_list server), nofun, rfl⟩
  · split
    · cases hr : registeredName server ((dictLookup request.params "name").getD .null) with
      | error e => simp only [hr]; exact .inr ⟨_, rfl⟩
      | ok o =>
        cases o with
        | none => simp only [hr]; exact .inr ⟨_, rfl⟩
        | some s =>
          cases hx : execute_tool pyhash s
              ((dictLookup request.params "arguments").getD (.obj [])) with
          | ok v =>
            obtain ⟨fs, rfl⟩ := execute_tool_ok_obj _ _ _ _ hx
            simp only [hr, hx]
            exact .inl ⟨.obj fs, nofun, rfl⟩
          | error e => simp only [hr, hx]; exact .inr ⟨_, rfl⟩
    · exact .inr ⟨_, rfl⟩

/-- A non-empty string is truthy. -/
theorem truthy_str_of_ne (d : String) (hd : d ≠ "") : (Value.str d).truthy = true := by
  have h : d.isEmpty = false := by
    cases h : d.isEmpty
    · rfl
    · exact absurd ((String.isEmpty_iff d).mp h) hd
  simp [Value.truthy, h]

/-- A hashable name that is not a registered key resolves to `none`
(the `Unknown tool` branch). -/
theorem registeredName_unregistered (server : SimpleMCPServer) (v : Value)
    (hhash : v.hashable = true)
    (hunreg : ∀ s, v = .str s → server.tools.any (fun p => p.1 == s) = false) :
    registeredName server v = .ok none := by
  cases v with
  | null => rfl
  | bool b => rfl
  | int n => rfl
  | float q => rfl
  | str s => simp [registeredName, Value.hashable, hunreg s rfl]
  | arr xs => simp [Value.hashable] at hhash
  | obj fs => simp [Value.hashable] at hhash

/-! ## The claims -/

/-- C1: For every request dispatched (method `list_tools`, `call_tool`, or any
other string), the response envelope populates exactly one of `data` and
`error`: `data` is non-null iff `success` is true, and `error` is present iff
`success` is false. -/
theorem envelope_data_error_exclusive (pyhash : Value → Int)
    (server : SimpleMCPServer) (request : MCPRequest) :
    ((handle_mcp_request pyhash server request).data ≠ Value.null
       ↔ (handle_mcp_request pyhash server request).success = true) ∧
    ((handle_mcp_request pyhash server request).error ≠ none
       ↔ (handle_mcp_request pyhash server request).success = false) := by
  rcases handle_shape pyhash server request with ⟨d, hd, h⟩ | ⟨e, h⟩
  · rw [h]; simp [hd]
  · rw [h]; simp

/-- C5: Every `list_tools` request succeeds with data exactly the registered
`name`/`description` pairs in registration order; each listed entry carries
only the `name` and `description` keys (no schema); an empty registry yields
the empty sequence; on the program's registry the listing is the two
registered tools. -/
theorem list_tools_exact (pyhash : Value → Int) (server : SimpleMCPServer)
    (params : List (String × Value)) :
    handle_mcp_request pyhash server ⟨"list_tools", params⟩ =
      ⟨true, .arr (tools_list server), none⟩ ∧
    tools_list server = server.tools.map (fun p =>
      Value.obj [("name", .str p.2.name), ("description", .str p.2.description)]) ∧
    ((tools_list server).all (fun v =>
      match v with
      | .obj fs => fs.map Prod.fst == ["name", "description"]
      | _ => false)) = true ∧
    tools_list ⟨[]⟩ = [] ∧
    handle_mcp_request pyhash SimpleMCPServer.init ⟨"list_tools", params⟩ =
      ⟨true, .arr
        [ .obj [("name", .str "get_crew_status"),
            ("description", .str "Get the status of CrewAI agents and tasks")]
        , .obj [("name", .str "execute_crew_task"),
            ("description", .str "Execute a task using CrewAI")] ], none⟩ := by
  refine ⟨?_, rfl, ?_, rfl, ?_⟩
  · unfold handle_mcp_request
    simp
  · simp only [tools_list, List.all_eq_true]
    intro x hx
    obtain ⟨p, hp, rfl⟩ := List.mem_map.mp hx
    rfl
  · unfold handle_mcp_request
    simp [tools_list, SimpleMCPServer.init]

/-- C2: For every `call_tool` request whose handler raises an error
(`execute_tool` returns `.error e`), the dispatcher catches it and returns a
failure envelope whose `error` is the raised message `e` verbatim; and for
every request whatsoever the dispatcher returns an envelope (success, or
failure with a message) — no exception escapes. -/
theorem call_tool_error_propagates (pyhash : Value → Int) (request : MCPRequest)
    (s e : String)
    (hm : request.method = "call_tool")
    (hreg : registeredName SimpleMCPServer.init
      ((dictLookup request.params "name").getD .null) = .ok (some s))
    (hx : execute_tool pyhash s
      ((dictLookup request.params "arguments").getD (.obj [])) = .error e) :
    handle_mcp_request pyhash SimpleMCPServer.init request =
      ⟨false, .null, some e⟩ ∧
    ∀ request' : MCPRequest,
      (handle_mcp_request pyhash SimpleMCPServer.init request').success = true ∨
      ∃ msg, handle_mcp_request pyhash SimpleMCPServer.init request' =
        ⟨false, .null, some msg⟩ := by
  constructor
  · have hreq : request = ⟨"call_tool", request.params⟩ := by
      cases request
      simp_all
    rw [hreq] at *
    exact handle_call_err pyhash _ request.params s e hreg hx
  · intro request'
    rcases handle_shape pyhash SimpleMCPServer.init request' with ⟨d, hd, h⟩ | ⟨msg, h⟩
    · left; rw [h]
    · right; exact ⟨msg, h⟩

/-- Witness for C2: the `execute_crew_task` validation error raised inside
the handler surfaces verbatim in the envelope. -/
theorem call_tool_error_propagates_witness :
    handle_mcp_request (fun _ => 0) SimpleMCPServer.init
      ⟨"call_tool", [("name", .str "execute_crew_task"),
        ("arguments", .obj [("task_description", .str "X")])]⟩ =
      ⟨false, .null, some "task_description and agent_role are required"⟩ :=
  (call_tool_error_propagates (fun _ => 0) _ "execute_crew_task"
    "task_description and agent_role are required" rfl (by decide) (by decide)).1

/-- C3 (amended): For every `call_tool` request whose name is absent or is a
hashable value that is not a registered tool name, the dispatcher returns
`success=false` with `error = "Unknown tool: <name>"` (name rendered by
Python `str()`, so an absent name renders as `None`); and for every request
whose method is neither `list_tools` nor `call_tool`, it returns
`success=false` with `error = "Unknown method: <method>"`.  (Unhashable
names — JSON arrays/objects — instead surface the `TypeError` message; see
the counterexample.) -/
theorem unknown_tool_unknown_method (pyhash : Value → Int)
    (params : List (String × Value)) (method : String)
    (hhash : ((dictLookup params "name").getD .null).hashable = true)
    (hunreg : ∀ s, (dictLookup params "name").getD .null = .str s →
      SimpleMCPServer.init.tools.any (fun p => p.1 == s) = false) :
    handle_mcp_request pyhash SimpleMCPServer.init ⟨"call_tool", params⟩ =
      ⟨false, .null,
        some ("Unknown tool: " ++ ((dictLookup params "name").getD .null).pyStr)⟩ ∧
    (method ≠ "list_tools" → method ≠ "call_tool" →
      handle_mcp_request pyhash SimpleMCPServer.init ⟨method, params⟩ =
        ⟨false, .null, some ("Unknown method: " ++ method)⟩) := by
  constructor
  · have hreg := registeredName_unregistered SimpleMCPServer.init _ hhash hunreg
    unfold handle_mcp_request
    simp only [hreg]
    simp
  · intro h1 h2
    have h1' : (method == "list_tools") = false := beq_eq_false_iff_ne.mpr h1
    have h2' : (method == "call_tool") = false := beq_eq_false_iff_ne.mpr h2
    unfold handle_mcp_request
    simp [h1', h2']

/-- Witness for C3 (amended): an unregistered string name and a bogus
method. -/
theorem unknown_tool_unknown_method_witness :
    handle_mcp_request (fun _ => 0) SimpleMCPServer.init
        ⟨"call_tool", [("name", Value.str "bogus")]⟩ =
      ⟨false, .null, some "Unknown tool: bogus"⟩ ∧
    handle_mcp_request (fun _ => 0) SimpleMCPServer.init
        ⟨"bogus", [("name", Value.str "bogus")]⟩ =
      ⟨false, .null, some "Unknown method: bogus"⟩ := by
  have h := unknown_tool_unknown_method (fun _ => 0)
    [("name", Value.str "bogus")] "bogus" (by decide)
    (fun s hs => by
      obtain rfl : s = "bogus" := (Value.str.inj hs).symm
      decide)
  constructor
  · rw [h.1]
    decide
  · rw [h.2 (by decide) (by decide)]
    decide

/-- Counterexample to C3 as stated: a `call_tool` request whose name is the
(unregistered) JSON array `[]` does not produce the `Unknown tool` message;
the dict-membership test raises `TypeError`, and the envelope carries
`unhashable type: 'list'` instead. -/
theorem unknown_tool_unhashable_counterexample :
    handle_mcp_request (fun _ => 0) SimpleMCPServer.init
        ⟨"call_tool", [("name", Value.arr [])]⟩ =
      ⟨false, .null, some "unhashable type: \x27list\x27"⟩ ∧
    "unhashable type: \x27list\x27" ≠
      "Unknown tool: " ++ (Value.arr []).pyStr := by decide

/-- C4: A `call_tool` request for `execute_crew_task` whose
`task_description` or `agent_role` is missing or empty yields
`success=false` with the validation message, and the server state (the
registry) is returned unchanged — no side effect occurs. -/
theorem missing_required_args_no_side_effect (pyhash : Value → Int)
    (params args : List (String × Value))
    (hname : dictLookup params "name" = some (.str "execute_crew_task"))
    (hargs : dictLookup params "arguments" = some (.obj args))
    (hmiss :
      (dictLookup args "task_description" = none ∨
        dictLookup args "task_description" = some (.str "")) ∨
      (dictLookup args "agent_role" = none ∨
        dictLookup args "agent_role" = some (.str ""))) :
    handle_step pyhash SimpleMCPServer.init ⟨"call_tool", params⟩ =
      (SimpleMCPServer.init,
        ⟨false, .null, some "task_description and agent_role are required"⟩) := by
  have hreg : registeredName SimpleMCPServer.init
      ((dictLookup params "name").getD .null) = .ok (some "execute_crew_task") := by
    rw [hname]
    decide
  have hx : execute_tool pyhash "execute_crew_task"
      ((dictLookup params "arguments").getD (.obj [])) =
      .error "task_description and agent_role are required" := by
    rw [hargs, Option.getD_some, execute_tool_exec]
    have he : "".isEmpty = true := rfl
    rcases hmiss with (h1 | h1) | (h1 | h1) <;> rw [h1] <;> simp [Value.truthy, he]
  unfold handle_step
  rw [handle_call_err pyhash _ params _ _ hreg hx]

/-- Witness for C4: `task_description` given, `agent_role` missing. -/
theorem missing_required_args_witness :
    handle_step (fun _ => 0) SimpleMCPServer.init
      ⟨"call_tool", [("name", .str "execute_crew_task"),
        ("arguments", .obj [("task_description", .str "X")])]⟩ =
      (SimpleMCPServer.init,
        ⟨false, .null, some "task_description and agent_role are required"⟩) :=
  missing_required_args_no_side_effect (fun _ => 0) _ _ rfl rfl (.inr (.inl rfl))

/-- On a hashable `task_description`, the handler succeeds with the full
mock record, deriving `task_id` from the hash of the description alone. -/
theorem execute_crew_task_ok (pyhash : Value → Int) (td ar : Value)
    (hh : td.hashable = true) :
    execute_crew_task pyhash td ar = .ok (.obj
      [ ("task_id", .str ("task_" ++ toString ((pyhash td).natAbs % 10000)))
      , ("status", .str "completed")
      , ("agent_role", ar)
      , ("task_description", td)
      , ("result", .str ("Task \x27" ++ td.pyStr
          ++ "\x27 completed successfully by " ++ ar.pyStr ++ " agent"))
      , ("execution_time", .str "2.5s")
      , ("timestamp", .str "2024-01-01T12:00:00Z") ]) := by
  unfold execute_crew_task pyHash
  rw [hh]
  rfl

/-- C6: A `call_tool` request for `execute_crew_task` with non-empty string
`task_description` and `agent_role` succeeds, and the data record echoes the
given `task_description` and `agent_role` values (round-trip). -/
theorem execute_crew_task_roundtrip (pyhash : Value → Int)
    (params args : List (String × Value)) (d r : String)
    (hname : dictLookup params "name" = some (.str "execute_crew_task"))
    (hargs : dictLookup params "arguments" = some (.obj args))
    (htd : dictLookup args "task_description" = some (.str d))
    (har : dictLookup args "agent_role" = some (.str r))
    (hd : d ≠ "") (hr : r ≠ "") :
    (handle_mcp_request pyhash SimpleMCPServer.init
        ⟨"call_tool", params⟩).success = true ∧
    ∃ fs, (handle_mcp_request pyhash SimpleMCPServer.init
        ⟨"call_tool", params⟩).data = .obj fs ∧
      dictLookup fs "task_description" = some (.str d) ∧
      dictLookup fs "agent_role" = some (.str r) := by
  have hreg : registeredName SimpleMCPServer.init
      ((dictLookup params "name").getD .null) = .ok (some "execute_crew_task") := by
    rw [hname]
    decide
  have hcond : (!(Value.str d).truthy || !(Value.str r).truthy) = false := by
    rw [truthy_str_of_ne d hd, truthy_str_of_ne r hr]
    rfl
  have hx : execute_tool pyhash "execute_crew_task"
      ((dictLookup params "arguments").getD (.obj [])) = .ok (.obj
      [ ("task_id", .str ("task_" ++ toString ((pyhash (.str d)).natAbs % 10000)))
      , ("status", .str "completed")
      , ("agent_role", .str r)
      , ("task_description", .str d)
      , ("result", .str ("Task \x27" ++ (Value.str d).pyStr
          ++ "\x27 completed successfully by " ++ (Value.str r).pyStr ++ " agent"))
      , ("execution_time", .str "2.5s")
      , ("timestamp", .str "2024-01-01T12:00:00Z") ]) := by
    rw [hargs, Option.getD_some, execute_tool_exec, htd, har, Option.getD_some,
      Option.getD_some, hcond]
    rw [if_neg (by simp)]
    exact execute_crew_task_ok pyhash (.str d) (.str r) rfl
  rw [handle_call_ok pyhash _ params _ _ hreg hx]
  exact ⟨rfl, _, rfl, rfl, rfl⟩

/-- Witness for C6: a concrete round-trip through the dispatcher. -/
theorem execute_crew_task_roundtrip_witness :
    ((handle_mcp_request (fun _ => 0) SimpleMCPServer.init
      ⟨"call_tool", [("name", .str "execute_crew_task"),
        ("arguments", .obj [("task_description", .str "X"),
          ("agent_role", .str "researcher")])]⟩).success = true) ∧
    ∃ fs, (handle_mcp_request (fun _ => 0) SimpleMCPServer.init
      ⟨"call_tool", [("name", .str "execute_crew_task"),
        ("arguments", .obj [("task_description", .str "X"),
          ("agent_role", .str "researcher")])]⟩).data = .obj fs ∧
      dictLookup fs "task_description" = some (.str "X") ∧
      dictLookup fs "agent_role" = some (.str "researcher") :=
  execute_crew_task_roundtrip (fun _ => 0) _ _ "X" "researcher"
    rfl rfl rfl rfl (by decide) (by decide)

/-- C7: A `call_tool` request for `get_crew_status` with a string (or
absent) `crew_id` always succeeds with the fixed status record, defaulting
`crew_id` to `"default"` when absent; two calls with the same `crew_id`
return structurally identical data records. -/
theorem get_crew_status_ok_idempotent (pyhash : Value → Int)
    (params args : List (String × Value)) (c : String)
    (hname : dictLookup params "name" = some (.str "get_crew_status"))
    (hargs : dictLookup params "arguments" = some (.obj args)) :
    (dictLookup args "crew_id" = some (.str c) →
      handle_mcp_request pyhash SimpleMCPServer.init ⟨"call_tool", params⟩ =
        ⟨true, get_crew_status (.str c), none⟩) ∧
    (dictLookup args "crew_id" = none →
      handle_mcp_request pyhash SimpleMCPServer.init ⟨"call_tool", params⟩ =
        ⟨true, get_crew_status (.str "default"), none⟩) ∧
    (∀ params' args',
      dictLookup params' "name" = some (.str "get_crew_status") →
      dictLookup params' "arguments" = some (.obj args') →
      dictLookup args' "crew_id" = dictLookup args "crew_id" →
      (handle_mcp_request pyhash SimpleMCPServer.init ⟨"call_tool", params'⟩).data =
        (handle_mcp_request pyhash SimpleMCPServer.init ⟨"call_tool", params⟩).data) := by
  have key : ∀ (ps as : List (String × Value)),
      dictLookup ps "name" = some (.str "get_crew_status") →
      dictLookup ps "arguments" = some (.obj as) →
      handle_mcp_request pyhash SimpleMCPServer.init ⟨"call_tool", ps⟩ =
        ⟨true, get_crew_status ((dictLookup as "crew_id").getD (.str "default")),
          none⟩ := by
    intro ps as hn ha
    have hreg : registeredName SimpleMCPServer.init
        ((dictLookup ps "name").getD .null) = .ok (some "get_crew_status") := by
      rw [hn]
      decide
    have hx : execute_tool pyhash "get_crew_status"
        ((dictLookup ps "arguments").getD (.obj [])) =
        .ok (get_crew_status ((dictLookup as "crew_id").getD (.str "default"))) := by
      rw [ha, Option.getD_some]
      exact execute_tool_status pyhash as
    exact handle_call_ok pyhash _ ps _ _ hreg hx
  refine ⟨?_, ?_, ?_⟩
  · intro h
    rw [key params args hname hargs, h]
    rfl
  · intro h
    rw [key params args hname hargs, h]
    rfl
  · intro params' args' hn' ha' hsame
    rw [key params' args' hn' ha', key params args hname hargs, hsame]

/-- Witness for C7: a concrete status call with `crew_id = "abc"`. -/
theorem get_crew_status_ok_idempotent_witness :
    handle_mcp_request (fun _ => 0) SimpleMCPServer.init
      ⟨"call_tool", [("name", .str "get_crew_status"),
        ("arguments", .obj [("crew_id", .str "abc")])]⟩ =
      ⟨true, get_crew_status (.str "abc"), none⟩ :=
  (get_crew_status_ok_idempotent (fun _ => 0)
    [("name", .str "get_crew_status"), ("arguments", .obj [("crew_id", .str "abc")])]
    [("crew_id", .str "abc")] "abc" rfl rfl).1 rfl

/-- C8: Every successful `execute_crew_task` call returns a `task_id` equal
to `"task_"` followed by the absolute value of the hash of
`task_description` reduced modulo 10000; the numeric part is below 10000,
and the identifier depends on `task_description` alone (equal descriptions
give equal identifiers, for the fixed per-process hash). -/
theorem task_id_derivation (pyhash : Value → Int)
    (params args : List (String × Value))
    (hname : dictLookup params "name" = some (.str "execute_crew_task"))
    (hargs : dictLookup params "arguments" = some (.obj args))
    (hsucc : (handle_mcp_request pyhash SimpleMCPServer.init
        ⟨"call_tool", params⟩).success = true) :
    ∃ fs, (handle_mcp_request pyhash SimpleMCPServer.init
        ⟨"call_tool", params⟩).data = .obj fs ∧
      dictLookup fs "task_id" = some (.str ("task_" ++ toString
        ((pyhash ((dictLookup args "task_description").getD .null)).natAbs
          % 10000))) ∧
      (pyhash ((dictLookup args "task_description").getD .null)).natAbs
        % 10000 < 10000 := by
  have hreg : registeredName SimpleMCPServer.init
      ((dictLookup params "name").getD .null) = .ok (some "execute_crew_task") := by
    rw [hname]
    decide
  by_cases hc : (!((dictLookup args "task_description").getD .null).truthy
      || !((dictLookup args "agent_role").getD .null).truthy) = true
  · have hx : execute_tool pyhash "execute_crew_task"
        ((dictLookup params "arguments").getD (.obj [])) =
        .error "task_description and agent_role are required" := by
      rw [hargs, Option.getD_some, execute_tool_exec, if_pos hc]
    rw [handle_call_err pyhash _ params _ _ hreg hx] at hsucc
    simp at hsucc
  · by_cases hh : ((dictLookup args "task_description").getD .null).hashable = true
    · have hx : execute_tool pyhash "execute_crew_task"
          ((dictLookup params "arguments").getD (.obj [])) = .ok (.obj
          [ ("task_id", .str ("task_" ++ toString
              ((pyhash ((dictLookup args "task_description").getD .null)).natAbs
                % 10000)))
          , ("status", .str "completed")
          , ("agent_role", (dictLookup args "agent_role").getD .null)
          , ("task_description", (dictLookup args "task_description").getD .null)
          , ("result", .str ("Task \x27"
              ++ ((dictLookup args "task_description").getD .null).pyStr
              ++ "\x27 completed successfully by "
              ++ ((dictLookup args "agent_role").getD .null).pyStr ++ " agent"))
          , ("execution_time", .str "2.5s")
          , ("timestamp", .str "2024-01-01T12:00:00Z") ]) := by
        rw [hargs, Option.getD_some, execute_tool_exec, if_neg hc]
        exact execute_crew_task_ok pyhash _ _ hh
      rw [handle_call_ok pyhash _ params _ _ hreg hx]
      exact ⟨_, rfl, rfl, Nat.mod_lt _ (by norm_num)⟩
    · have hh' : ((dictLookup args "task_description").getD .null).hashable
          = false := by
        cases h : ((dictLookup args "task_description").getD .null).hashable
        · rfl
        · exact absurd h hh
      have hx : execute_tool pyhash "execute_crew_task"
          ((dictLookup params "arguments").getD (.obj [])) =
          .error ("unhashable type: \x27"
            ++ ((dictLookup args "task_description").getD .null).pyTypeName
            ++ "\x27") := by
        rw [hargs, Option.getD_some, execute_tool_exec, if_neg hc]
        unfold execute_crew_task pyHash
        rw [hh']
        rfl
      rw [handle_call_err pyhash _ params _ _ hreg hx] at hsucc
      simp at hsucc

/-- Witness for C8: a concrete successful execution under the hash function
that maps everything to 123456789. -/
theorem task_id_derivation_witness :
    ∃ fs, (handle_mcp_request (fun _ => 123456789) SimpleMCPServer.init
        ⟨"call_tool", [("name", .str "execute_crew_task"),
          ("arguments", .obj [("task_description", .str "X"),
            ("agent_role", .str "researcher")])]⟩).data = .obj fs ∧
      dictLookup fs "task_id" = some (.str "task_6789") ∧
      (6789 : ℕ) < 10000 := by
  obtain ⟨fs, h1, h2, _⟩ := task_id_derivation (fun _ => 123456789)
    [("name", .str "execute_crew_task"),
      ("arguments", .obj [("task_description", .str "X"),
        ("agent_role", .str "researcher")])]
    [("task_description", .str "X"), ("agent_role", .str "researcher")]
    rfl rfl (by decide)
  refine ⟨fs, h1, ?_, by norm_num⟩
  rw [h2]
  rfl

/-- C10: A `call_tool` request whose params omit the `arguments` key is
dispatched with the empty argument mapping: `get_crew_status` succeeds with
`crew_id = "default"`, while `execute_crew_task` fails with the
required-arguments validation message. -/
theorem omitted_arguments_empty_mapping (pyhash : Value → Int)
    (params : List (String × Value))
    (hnoargs : dictLookup params "arguments" = none) :
    (dictLookup params "name" = some (.str "get_crew_status") →
      handle_mcp_request pyhash SimpleMCPServer.init ⟨"call_tool", params⟩ =
        ⟨true, get_crew_status (.str "default"), none⟩) ∧
    (dictLookup params "name" = some (.str "execute_crew_task") →
      handle_mcp_request pyhash SimpleMCPServer.init ⟨"call_tool", params⟩ =
        ⟨false, .null, some "task_description and agent_role are required"⟩) := by
  constructor
  · intro hname
    have hreg : registeredName SimpleMCPServer.init
        ((dictLookup params "name").getD .null) = .ok (some "get_crew_status") := by
      rw [hname]
      decide
    have hx : execute_tool pyhash "get_crew_status"
        ((dictLookup params "arguments").getD (.obj [])) =
        .ok (get_crew_status (.str "default")) := by
      rw [hnoargs, Option.getD_none]
      exact execute_tool_status pyhash []
    exact handle_call_ok pyhash _ params _ _ hreg hx
  · intro hname
    have hreg : registeredName SimpleMCPServer.init
        ((dictLookup params "name").getD .null) =
        .ok (some "execute_crew_task") := by
      rw [hname]
      decide
    have hx : execute_tool pyhash "execute_crew_task"
        ((dictLookup params "arguments").getD (.obj [])) =
        .error "task_description and agent_role are required" := by
      rw [hnoargs, Option.getD_none, execute_tool_exec]
      rfl
    exact handle_call_err pyhash _ params _ _ hreg hx

/-- Witness for C10: both tools invoked with params lacking `arguments`. -/
theorem omitted_arguments_empty_mapping_witness :
    handle_mcp_request (fun _ => 0) SimpleMCPServer.init
        ⟨"call_tool", [("name", .str "get_crew_status")]⟩ =
      ⟨true, get_crew_status (.str "default"), none⟩ ∧
    handle_mcp_request (fun _ => 0) SimpleMCPServer.init
        ⟨"call_tool", [("name", .str "execute_crew_task")]⟩ =
      ⟨false, .null, some "task_description and agent_role are required"⟩ :=
  ⟨(omitted_arguments_empty_mapping (fun _ => 0)
      [("name", .str "get_crew_status")] rfl).1 rfl,
   (omitted_arguments_empty_mapping (fun _ => 0)
      [("name", .str "execute_crew_task")] rfl).2 rfl⟩

/-- C9 (amended): On a 200-status reply, the connector's `list_mcp_tools`
surfaces the envelope's `data` when `success` is truthy and raises an error
carrying the envelope's `error` message otherwise; `get_crew_status_from_mcp`,
however, returns the received envelope unchanged — including failure
envelopes — without inspecting `success`. -/
theorem connector_envelope_interpretation (resp : MCPResponse) :
    (resp.success = true →
      list_mcp_tools (encodeResponse resp) = .ok resp.data) ∧
    (resp.success = false → ∀ e, resp.error = some e →
      list_mcp_tools (encodeResponse resp) =
        .error ("Failed to list MCP tools: " ++ e)) ∧
    (resp.success = false → resp.error = none →
      list_mcp_tools (encodeResponse resp) =
        .error "Failed to list MCP tools: None") ∧
    get_crew_status_from_mcp (encodeResponse resp) = encodeResponse resp := by
  refine ⟨?_, ?_, ?_, rfl⟩
  · intro h
    unfold list_mcp_tools encodeResponse
    rw [h]
    rfl
  · intro h e he
    unfold list_mcp_tools encodeResponse
    rw [h, he]
    rfl
  · intro h he
    unfold list_mcp_tools encodeResponse
    rw [h, he]
    rfl

/-- Witness for C9 (amended): a success and a failure envelope through
`list_mcp_tools`. -/
theorem connector_envelope_interpretation_witness :
    list_mcp_tools (encodeResponse ⟨true, .arr [], none⟩) = .ok (.arr []) ∧
    list_mcp_tools (encodeResponse ⟨false, .null, some "boom"⟩) =
      .error "Failed to list MCP tools: boom" :=
  ⟨(connector_envelope_interpretation ⟨true, .arr [], none⟩).1 rfl,
   (connector_envelope_interpretation ⟨false, .null, some "boom"⟩).2.1
     rfl "boom" rfl⟩

/-- Counterexample to C9 as stated: `get_crew_status_from_mcp` hands a
failure envelope (success `false`) back to its caller as the call's result,
unchanged, instead of raising. -/
theorem connector_status_passthrough_counterexample :
    get_crew_status_from_mcp (encodeResponse ⟨false, .null, some "boom"⟩) =
      encodeResponse ⟨false, .null, some "boom"⟩ ∧
    dictLookup (get_crew_status_from_mcp
      (encodeResponse ⟨false, .null, some "boom"⟩)) "success" =
      some (.bool false) := by decide

end MCPCrewAI
